import Mathlib

/-!
Shallow embedding of the rustbox terminal library core
(src/keyboard.rs and src/rustbox.rs): the key model, the raw-event
translator, the style/color codec and the session guard, together with
theorems checking the natural-language specification against them.
Machine integers (u8/u16/u32/i32) are modelled as Nat/Int; where the
source performs wrapping machine arithmetic an explicit `% 2^w` is kept.
-/

set_option maxRecDepth 8192

namespace Rustbox

/-- Boolean test for a valid Unicode scalar value, the domain of Rust's
`char::from_u32`: below the surrogate range or strictly between the
surrogates and 0x110000. -/
def isUnicodeScalar (n : Nat) : Bool :=
  decide (n < 0xD800) || (decide (0xDFFF < n) && decide (n < 0x110000))

/-- Embedding of Rust `char::from_u32`: `some` of the character with the
given scalar value when it is valid, `none` otherwise. -/
def char_from_u32 (n : Nat) : Option Char :=
  if isUnicodeScalar n then some (Char.ofNat n) else none

/-- The `Key` enum of src/keyboard.rs: a character key or a 16-bit coded
key (the code modelled as a Nat). -/
inductive Key where
  | char : Char → Key
  | key : Nat → Key
deriving DecidableEq, Repr

/-- Core of `Key::control` from src/keyboard.rs, on the character's
scalar value (`ch as u32`): the guard rejects scalars above 0xFF, then
the match arms are tried in source order.  The letter arms compute
`ch as u16 - 'a' as u16 + 1` (resp. `'A'`); inside the guarded ranges
this u16 arithmetic cannot wrap, so plain Nat arithmetic is exact. -/
def controlCode (n : Nat) : Option Nat :=
  if 0xFF < n then none
  else if n = 0x32 ∨ n = 0x7E then some 0
  else if 0x61 ≤ n ∧ n ≤ 0x7A then some (n - 0x61 + 1)
  else if 0x41 ≤ n ∧ n ≤ 0x5A then some (n - 0x41 + 1)
  else if n = 0x33 ∨ n = 0x5B then some 0x1B
  else if n = 0x34 ∨ n = 0x5C then some 0x1C
  else if n = 0x35 ∨ n = 0x5D then some 0x1D
  else if n = 0x36 then some 0x1E
  else if n = 0x37 ∨ n = 0x2F ∨ n = 0x5F then some 0x1F
  else if n = 0x38 then some 0x7F
  else none

/-- `Key::control` of src/keyboard.rs. -/
def Key.control (ch : Char) : Option Key :=
  (controlCode ch.toNat).map Key.key

/-- `Key::funcion` of src/keyboard.rs (sic): for `1 <= num <= 12` the
code is `0xFFFF - num as u16 - 1`; the `as u16` cast is a `% 65536`.
Inside the guard no u16 subtraction wraps. -/
def Key.funcion (num : Nat) : Option Key :=
  if 1 ≤ num ∧ num ≤ 12 then some (Key.key (0xFFFF - num % 65536 - 1)) else none

namespace key

/-- `key::F1` of src/keyboard.rs. -/
def F1 : Key := Key.key (0xFFFF - 0)

/-- `key::F2` of src/keyboard.rs. -/
def F2 : Key := Key.key (0xFFFF - 1)

/-- `key::F3` of src/keyboard.rs. -/
def F3 : Key := Key.key (0xFFFF - 2)

/-- `key::F4` of src/keyboard.rs. -/
def F4 : Key := Key.key (0xFFFF - 3)

/-- `key::F5` of src/keyboard.rs. -/
def F5 : Key := Key.key (0xFFFF - 4)

/-- `key::F6` of src/keyboard.rs. -/
def F6 : Key := Key.key (0xFFFF - 5)

/-- `key::F7` of src/keyboard.rs. -/
def F7 : Key := Key.key (0xFFFF - 6)

/-- `key::F8` of src/keyboard.rs. -/
def F8 : Key := Key.key (0xFFFF - 7)

/-- `key::F9` of src/keyboard.rs. -/
def F9 : Key := Key.key (0xFFFF - 8)

/-- `key::F10` of src/keyboard.rs. -/
def F10 : Key := Key.key (0xFFFF - 9)

/-- `key::F11` of src/keyboard.rs. -/
def F11 : Key := Key.key (0xFFFF - 10)

/-- `key::F12` of src/keyboard.rs. -/
def F12 : Key := Key.key (0xFFFF - 11)

/-- `key::INSERT` of src/keyboard.rs. -/
def INSERT : Key := Key.key (0xFFFF - 12)

/-- `key::DELETE` of src/keyboard.rs. -/
def DELETE : Key := Key.key (0xFFFF - 13)

/-- `key::HOME` of src/keyboard.rs. -/
def HOME : Key := Key.key (0xFFFF - 14)

/-- `key::END` of src/keyboard.rs. -/
def END : Key := Key.key (0xFFFF - 15)

/-- `key::PGUP` of src/keyboard.rs. -/
def PGUP : Key := Key.key (0xFFFF - 16)

/-- `key::PGDN` of src/keyboard.rs. -/
def PGDN : Key := Key.key (0xFFFF - 17)

/-- `key::ARROW_UP` of src/keyboard.rs. -/
def ARROW_UP : Key := Key.key (0xFFFF - 18)

/-- `key::ARROW_DOWN` of src/keyboard.rs. -/
def ARROW_DOWN : Key := Key.key (0xFFFF - 19)

/-- `key::ARROW_LEFT` of src/keyboard.rs. -/
def ARROW_LEFT : Key := Key.key (0xFFFF - 20)

/-- `key::ARROW_RIGHT` of src/keyboard.rs. -/
def ARROW_RIGHT : Key := Key.key (0xFFFF - 21)

/-- `key::MOUSE_LEFT` of src/keyboard.rs. -/
def MOUSE_LEFT : Key := Key.key (0xFFFF - 22)

/-- `key::MOUSE_RIGHT` of src/keyboard.rs. -/
def MOUSE_RIGHT : Key := Key.key (0xFFFF - 23)

/-- `key::MOUSE_MIDDLE` of src/keyboard.rs. -/
def MOUSE_MIDDLE : Key := Key.key (0xFFFF - 24)

/-- `key::MOUSE_RELEASE` of src/keyboard.rs. -/
def MOUSE_RELEASE : Key := Key.key (0xFFFF - 25)

/-- `key::MOUSE_WHEEL_UP` of src/keyboard.rs. -/
def MOUSE_WHEEL_UP : Key := Key.key (0xFFFF - 26)

/-- `key::MOUSE_WHEEL_DOWN` of src/keyboard.rs. -/
def MOUSE_WHEEL_DOWN : Key := Key.key (0xFFFF - 27)

/-- `key::CTRL_TILDE` of src/keyboard.rs. -/
def CTRL_TILDE : Key := Key.key 0x00

/-- `key::CTRL_2` of src/keyboard.rs (clash with CTRL_TILDE). -/
def CTRL_2 : Key := Key.key 0x00

/-- `key::CTRL_A` of src/keyboard.rs. -/
def CTRL_A : Key := Key.key 0x01

/-- `key::CTRL_B` of src/keyboard.rs. -/
def CTRL_B : Key := Key.key 0x02

/-- `key::CTRL_C` of src/keyboard.rs. -/
def CTRL_C : Key := Key.key 0x03

/-- `key::CTRL_D` of src/keyboard.rs. -/
def CTRL_D : Key := Key.key 0x04

/-- `key::CTRL_E` of src/keyboard.rs. -/
def CTRL_E : Key := Key.key 0x05

/-- `key::CTRL_F` of src/keyboard.rs. -/
def CTRL_F : Key := Key.key 0x06

/-- `key::CTRL_G` of src/keyboard.rs. -/
def CTRL_G : Key := Key.key 0x07

/-- `key::BACKSPACE` of src/keyboard.rs. -/
def BACKSPACE : Key := Key.key 0x08

/-- `key::CTRL_H` of src/keyboard.rs (clash with BACKSPACE). -/
def CTRL_H : Key := Key.key 0x08

/-- `key::TAB` of src/keyboard.rs. -/
def TAB : Key := Key.key 0x09

/-- `key::CTRL_I` of src/keyboard.rs (clash with TAB). -/
def CTRL_I : Key := Key.key 0x09

/-- `key::CTRL_J` of src/keyboard.rs. -/
def CTRL_J : Key := Key.key 0x0A

/-- `key::CTRL_K` of src/keyboard.rs. -/
def CTRL_K : Key := Key.key 0x0B

/-- `key::CTRL_L` of src/keyboard.rs. -/
def CTRL_L : Key := Key.key 0x0C

/-- `key::ENTER` of src/keyboard.rs. -/
def ENTER : Key := Key.key 0x0D

/-- `key::CTRL_M` of src/keyboard.rs (clash with ENTER). -/
def CTRL_M : Key := Key.key 0x0D

/-- `key::CTRL_N` of src/keyboard.rs. -/
def CTRL_N : Key := Key.key 0x0E

/-- `key::CTRL_O` of src/keyboard.rs. -/
def CTRL_O : Key := Key.key 0x0F

/-- `key::CTRL_P` of src/keyboard.rs. -/
def CTRL_P : Key := Key.key 0x10

/-- `key::CTRL_Q` of src/keyboard.rs. -/
def CTRL_Q : Key := Key.key 0x11

/-- `key::CTRL_R` of src/keyboard.rs. -/
def CTRL_R : Key := Key.key 0x12

/-- `key::CTRL_S` of src/keyboard.rs. -/
def CTRL_S : Key := Key.key 0x13

/-- `key::CTRL_T` of src/keyboard.rs. -/
def CTRL_T : Key := Key.key 0x14

/-- `key::CTRL_U` of src/keyboard.rs. -/
def CTRL_U : Key := Key.key 0x15

/-- `key::CTRL_V` of src/keyboard.rs. -/
def CTRL_V : Key := Key.key 0x16

/-- `key::CTRL_W` of src/keyboard.rs. -/
def CTRL_W : Key := Key.key 0x17

/-- `key::CTRL_X` of src/keyboard.rs. -/
def CTRL_X : Key := Key.key 0x18

/-- `key::CTRL_Y` of src/keyboard.rs. -/
def CTRL_Y : Key := Key.key 0x19

/-- `key::CTRL_Z` of src/keyboard.rs. -/
def CTRL_Z : Key := Key.key 0x1A

/-- `key::ESC` of src/keyboard.rs. -/
def ESC : Key := Key.key 0x1B

/-- `key::CTRL_LSQ_BRACKET` of src/keyboard.rs (clash with ESC). -/
def CTRL_LSQ_BRACKET : Key := Key.key 0x1B

/-- `key::CTRL_3` of src/keyboard.rs (clash with ESC). -/
def CTRL_3 : Key := Key.key 0x1B

/-- `key::CTRL_4` of src/keyboard.rs. -/
def CTRL_4 : Key := Key.key 0x1C

/-- `key::CTRL_BACKSLASH` of src/keyboard.rs (clash with CTRL_4). -/
def CTRL_BACKSLASH : Key := Key.key 0x1C

/-- `key::CTRL_5` of src/keyboard.rs. -/
def CTRL_5 : Key := Key.key 0x1D

/-- `key::CTRL_RSQ_BRACKET` of src/keyboard.rs (clash with CTRL_5). -/
def CTRL_RSQ_BRACKET : Key := Key.key 0x1D

/-- `key::CTRL_6` of src/keyboard.rs. -/
def CTRL_6 : Key := Key.key 0x1E

/-- `key::CTRL_7` of src/keyboard.rs. -/
def CTRL_7 : Key := Key.key 0x1F

/-- `key::CTRL_SLASH` of src/keyboard.rs (clash with CTRL_7). -/
def CTRL_SLASH : Key := Key.key 0x1F

/-- `key::CTRL_UNDERSCORE` of src/keyboard.rs (clash with CTRL_7). -/
def CTRL_UNDERSCORE : Key := Key.key 0x1F

/-- `key::SPACE` of src/keyboard.rs. -/
def SPACE : Key := Key.key 0x20

/-- `key::BACKSPACE2` of src/keyboard.rs. -/
def BACKSPACE2 : Key := Key.key 0x7F

/-- `key::CTRL_8` of src/keyboard.rs (clash with BACKSPACE2). -/
def CTRL_8 : Key := Key.key 0x7F

/-- The twelve function-key constants, in order, as listed in `mod key`. -/
def FKeys : List Key :=
  [F1, F2, F3, F4, F5, F6, F7, F8, F9, F10, F11, F12]

/-- Every named constant of `mod key` of src/keyboard.rs, in source order. -/
def constants : List Key :=
  [F1, F2, F3, F4, F5, F6, F7, F8, F9, F10, F11, F12,
   INSERT, DELETE, HOME, END, PGUP, PGDN,
   ARROW_UP, ARROW_DOWN, ARROW_LEFT, ARROW_RIGHT,
   MOUSE_LEFT, MOUSE_RIGHT, MOUSE_MIDDLE, MOUSE_RELEASE,
   MOUSE_WHEEL_UP, MOUSE_WHEEL_DOWN,
   CTRL_TILDE, CTRL_2, CTRL_A, CTRL_B, CTRL_C, CTRL_D, CTRL_E, CTRL_F,
   CTRL_G, BACKSPACE, CTRL_H, TAB, CTRL_I, CTRL_J, CTRL_K, CTRL_L,
   ENTER, CTRL_M, CTRL_N, CTRL_O, CTRL_P, CTRL_Q, CTRL_R, CTRL_S,
   CTRL_T, CTRL_U, CTRL_V, CTRL_W, CTRL_X, CTRL_Y, CTRL_Z,
   ESC, CTRL_LSQ_BRACKET, CTRL_3, CTRL_4, CTRL_BACKSLASH,
   CTRL_5, CTRL_RSQ_BRACKET, CTRL_6, CTRL_7, CTRL_SLASH, CTRL_UNDERSCORE,
   SPACE, BACKSPACE2, CTRL_8]

end key

/-- The `Event` enum of src/rustbox.rs: raw key data, a translated key
event (carrying only an optional `Key` — no modifier field), a resize,
or no event. -/
inductive Event where
  | KeyEventRaw : Nat → Nat → Nat → Event
  | KeyEvent : Option Key → Event
  | ResizeEvent : Int → Int → Event
  | NoEvent : Event
deriving DecidableEq, Repr

/-- The `InputMode` enum of src/rustbox.rs. -/
inductive InputMode where
  | Current : InputMode
  | Esc : InputMode
  | Alt : InputMode
deriving DecidableEq, Repr

/-- The `RawEvent` record filled in by the driver (termbox layout used
by src/rustbox.rs): event type, modifier, key code, character code, and
the geometry fields. -/
structure RawEvent where
  etype : Nat
  emod : Nat
  key : Nat
  ch : Nat
  w : Int
  h : Int
  x : Int
  y : Int
deriving DecidableEq, Repr

/-- Modelled from the spec: `Key::from_code` is called by `unpack_event`
in src/rustbox.rs but its definition is not among the sources available;
per the spec, a nonzero key code from the driver is wrapped directly as
a coded key. -/
def Key.from_code (code : Nat) : Option Key :=
  some (Key.key code)

/-- Result of `unpack_event` of src/rustbox.rs, an `io::Result<Event>`
whose failure is the captured OS error; the catch-all match arm is a
Rust `panic!`, modelled as the `fatal` outcome. -/
inductive UnpackOutcome where
  | ok : Event → UnpackOutcome
  | osError : UnpackOutcome
  | fatal : UnpackOutcome
deriving DecidableEq, Repr

/-- `unpack_event` of src/rustbox.rs: dispatch on the driver status code
`ev_type`; for a key event (type 1) either keep the raw fields or
translate — a zero key code decodes the character channel, a nonzero one
goes through `Key::from_code`; the modifier field is only read in raw
mode. -/
def unpack_event (ev_type : Int) (ev : RawEvent) (raw : Bool) : UnpackOutcome :=
  if ev_type = 0 then UnpackOutcome.ok Event.NoEvent
  else if ev_type = 1 then
    UnpackOutcome.ok
      (if raw then Event.KeyEventRaw ev.emod ev.key ev.ch
       else Event.KeyEvent
         (if ev.key = 0 then (char_from_u32 ev.ch).map Key.char
          else Key.from_code ev.key))
  else if ev_type = 2 then UnpackOutcome.ok (Event.ResizeEvent ev.w ev.h)
  else if ev_type = -1 then UnpackOutcome.osError
  else UnpackOutcome.fatal

/-- The `Color` enum of src/rustbox.rs: Default plus eight named colors. -/
inductive Color where
  | Default : Color
  | Black : Color
  | Red : Color
  | Green : Color
  | Yellow : Color
  | Blue : Color
  | Magenta : Color
  | Cyan : Color
  | White : Color
deriving DecidableEq, Repr

/-- The u16 discriminant of each `Color` variant (src/rustbox.rs). -/
def Color.toNat : Color → Nat
  | Color.Default => 0x00
  | Color.Black => 0x01
  | Color.Red => 0x02
  | Color.Green => 0x03
  | Color.Yellow => 0x04
  | Color.Blue => 0x05
  | Color.Magenta => 0x06
  | Color.Cyan => 0x07
  | Color.White => 0x08

/-- The bitflags `Style` of `mod style` in src/rustbox.rs: a packed u16. -/
structure Style where
  bits : Nat
deriving DecidableEq, Repr

/-- `TB_NORMAL_COLOR` flag of `mod style`: the 4-bit color field mask. -/
def TB_NORMAL_COLOR : Style := Style.mk 0x000F

/-- `RB_BOLD` flag of `mod style`. -/
def RB_BOLD : Style := Style.mk 0x0100

/-- `RB_UNDERLINE` flag of `mod style`. -/
def RB_UNDERLINE : Style := Style.mk 0x0200

/-- `RB_REVERSE` flag of `mod style`. -/
def RB_REVERSE : Style := Style.mk 0x0400

/-- `RB_NORMAL` flag of `mod style`: the zero style. -/
def RB_NORMAL : Style := Style.mk 0x0000

/-- `TB_ATTRIB` flag of `mod style`: union of the three attribute bits. -/
def TB_ATTRIB : Style := Style.mk (RB_BOLD.bits ||| RB_UNDERLINE.bits ||| RB_REVERSE.bits)

/-- Bitflags `|` on `Style` values (bitwise or of the bit patterns). -/
def Style.or (a b : Style) : Style := Style.mk (a.bits ||| b.bits)

/-- Bitflags `&` on `Style` values (bitwise and of the bit patterns). -/
def Style.and (a b : Style) : Style := Style.mk (a.bits &&& b.bits)

/-- `Style::from_color` of src/rustbox.rs: the color's bit pattern
masked into the 4-bit color field. -/
def Style.from_color (color : Color) : Style :=
  Style.mk (color.toNat &&& TB_NORMAL_COLOR.bits)

/-- The foreground style computed by `RustBox::print` and
`RustBox::print_char` of src/rustbox.rs:
`Style::from_color(fg) | (sty & style::TB_ATTRIB)`. -/
def printFg (sty : Style) (fg : Color) : Style :=
  (Style.from_color fg).or (sty.and TB_ATTRIB)

/-- Decoding of a 4-bit color field back to a `Color`, the inverse
reading of the discriminant table of the `Color` enum. -/
def Color.decode : Nat → Option Color
  | 0x00 => some Color.Default
  | 0x01 => some Color.Black
  | 0x02 => some Color.Red
  | 0x03 => some Color.Green
  | 0x04 => some Color.Yellow
  | 0x05 => some Color.Blue
  | 0x06 => some Color.Magenta
  | 0x07 => some Color.Cyan
  | 0x08 => some Color.White
  | _ => none

/-- The `InitError` enum of src/rustbox.rs. -/
inductive InitError where
  | AlreadyOpen : InitError
  | UnsupportedTerminal : InitError
  | FailedToOpenTty : InitError
  | PipeTrapError : InitError
deriving DecidableEq, Repr

/-- `InitError::from_termbox_error` of src/rustbox.rs; the catch-all arm
is a Rust `panic!`, modelled as `none`. -/
def InitError.from_termbox_error (res : Int) : Option InitError :=
  if res = -1 then some InitError.UnsupportedTerminal
  else if res = -2 then some InitError.FailedToOpenTty
  else if res = -3 then some InitError.PipeTrapError
  else none

/-- The RAII token of `mod running` in src/rustbox.rs. -/
structure RunningGuard where
deriving DecidableEq, Repr

namespace running

/-- `running::run` of src/rustbox.rs: an atomic
`RUSTBOX_RUNNING.swap(true)` — the flag is set to true, and acquisition
succeeds exactly when the old value was false.  The state of the global
flag is passed and returned explicitly. -/
def run (flag : Bool) : Option RunningGuard × Bool :=
  if flag then (none, true) else (some (RunningGuard.mk), true)

end running

/-- `Drop for RunningGuard` of src/rustbox.rs: dropping the guard stores
false into the global flag; the returned value is the new flag state. -/
def RunningGuard.drop (_g : RunningGuard) : Bool := false

/-- The `RustBox` struct of src/rustbox.rs: holds the RAII running
guard (its other fields are driver-side and carry no model state). -/
structure RustBox where
  _running : RunningGuard
deriving DecidableEq, Repr

/-- `InitOptions` of src/rustbox.rs. -/
structure InitOptions where
  input_mode : InputMode
deriving DecidableEq, Repr

/-- A driver primitive invoked during `RustBox::init`, recorded in call
order to observe which driver calls an initialization path performs. -/
inductive DriverCall where
  | tb_init : DriverCall
  | tb_select_input_mode : InputMode → DriverCall
deriving DecidableEq, Repr

/-- Result summary of `RustBox::init`; the `panic!` inside
`from_termbox_error` is the `fatal` outcome. -/
inductive InitOutcome where
  | ok : RustBox → InitOutcome
  | err : InitError → InitOutcome
  | fatal : InitOutcome
deriving DecidableEq, Repr

/-- `RustBox::init` of src/rustbox.rs, with the global running flag
passed explicitly and the driver's `tb_init` return status supplied as
`tb_init_res`.  Returns the outcome, the final state of the running
flag, and the list of driver primitives invoked, in order.  On the
error-return path the `running` guard goes out of scope, so its `Drop`
runs and clears the flag. -/
def RustBox.init (flag : Bool) (tb_init_res : Int) (opts : InitOptions) :
    InitOutcome × Bool × List DriverCall :=
  match running.run flag with
  | (none, flag') => (InitOutcome.err InitError.AlreadyOpen, flag', [])
  | (some g, _) =>
    if tb_init_res = 0 then
      match opts.input_mode with
      | InputMode.Current => (InitOutcome.ok (RustBox.mk g), true, [DriverCall.tb_init])
      | m => (InitOutcome.ok (RustBox.mk g), true,
              [DriverCall.tb_init, DriverCall.tb_select_input_mode m])
    else
      match InitError.from_termbox_error tb_init_res with
      | some e => (InitOutcome.err e, RunningGuard.drop g, [DriverCall.tb_init])
      | none => (InitOutcome.fatal, RunningGuard.drop g, [DriverCall.tb_init])

/-- The control-key mapping table as worded by the spec, on the scalar
value: `2`/`~` to 0; each lowercase letter to its alphabet position plus
one; each uppercase letter to the same code as its lowercase form;
`3`/`[` to 0x1B, `4`/`\` to 0x1C, `5`/`]` to 0x1D, `6` to 0x1E,
`7`/`/`/`_` to 0x1F, `8` to 0x7F; every other character, including every
scalar above 0xFF, to none. -/
def controlSpecCode (n : Nat) : Option Nat :=
  if n = 0x32 ∨ n = 0x7E then some 0
  else if 0x61 ≤ n ∧ n ≤ 0x7A then some (n - 0x61 + 1)
  else if 0x41 ≤ n ∧ n ≤ 0x5A then some ((n + 0x20) - 0x61 + 1)
  else if n = 0x33 ∨ n = 0x5B then some 0x1B
  else if n = 0x34 ∨ n = 0x5C then some 0x1C
  else if n = 0x35 ∨ n = 0x5D then some 0x1D
  else if n = 0x36 then some 0x1E
  else if n = 0x37 ∨ n = 0x2F ∨ n = 0x5F then some 0x1F
  else if n = 0x38 then some 0x7F
  else none

/-- The spec's control-key derivation on characters. -/
def Key.control_spec (ch : Char) : Option Key :=
  (controlSpecCode ch.toNat).map Key.key

/-- The source `controlCode` agrees with the spec's table at every
scalar value. -/
theorem controlCode_eq_specCode (n : Nat) : controlCode n = controlSpecCode n := by
  by_cases hn : n < 0x100
  · exact (show ∀ m, m < 0x100 → controlCode m = controlSpecCode m by decide) n hn
  · have hg : 0xFF < n := by omega
    have h1 : ¬(n = 0x32 ∨ n = 0x7E) := by omega
    have h2 : ¬(0x61 ≤ n ∧ n ≤ 0x7A) := by omega
    have h3 : ¬(0x41 ≤ n ∧ n ≤ 0x5A) := by omega
    have h4 : ¬(n = 0x33 ∨ n = 0x5B) := by omega
    have h5 : ¬(n = 0x34 ∨ n = 0x5C) := by omega
    have h6 : ¬(n = 0x35 ∨ n = 0x5D) := by omega
    have h7 : ¬(n = 0x36) := by omega
    have h8 : ¬(n = 0x37 ∨ n = 0x2F ∨ n = 0x5F) := by omega
    have h9 : ¬(n = 0x38) := by omega
    simp only [controlCode, controlSpecCode, if_pos hg, if_neg h1, if_neg h2, if_neg h3,
      if_neg h4, if_neg h5, if_neg h6, if_neg h7, if_neg h8, if_neg h9]

/-- C4: the control-key derivation `Key::control` equals the exhaustive
mapping table of the spec, with all aliases, at every character: `2`/`~`
give code 0, lowercase letters give alphabet position plus one,
uppercase letters give the code of their lowercase form, the punctuation
aliases give 0x1B–0x1F and 0x7F, and every other character (including
all scalars above 0xFF) gives none. -/
theorem control_eq_spec_table (ch : Char) : Key.control ch = Key.control_spec ch := by
  unfold Key.control Key.control_spec
  rw [controlCode_eq_specCode]

/-- C2: `Key::funcion` is defined exactly on `1 ≤ n ≤ 12`, where it
returns the coded key `0xFFFF - n - 1`; outside that range (in
particular at 0 and 13) it returns none. -/
theorem funcion_defined_iff (n : Nat) :
    Key.funcion n = if 1 ≤ n ∧ n ≤ 12 then some (Key.key (0xFFFF - n - 1)) else none := by
  unfold Key.funcion
  by_cases h : 1 ≤ n ∧ n ≤ 12
  · rw [if_pos h, if_pos h, Nat.mod_eq_of_lt (by omega)]
  · rw [if_neg h, if_neg h]

/-- C3 counterexample: at n = 1 the derivation yields code 0xFFFD while
the named constant F1 carries code 0xFFFF, and 0xFFFD is not the
constant's code minus one. -/
theorem funcion_one_below_constant_counterexample :
    Key.funcion 1 = some (Key.key 0xFFFD) ∧ key.F1 = Key.key 0xFFFF ∧
    Key.funcion 1 ≠ some (Key.key (0xFFFF - 1)) := by decide

/-- C3 amended: for every n in [1,12] the code produced by
`Key::funcion n` is exactly two slots below the code of the named
constant Fn: the n-th entry of the F-key table carries code
`0xFFFF - (n - 1)` and the derivation yields that code minus 2. -/
theorem funcion_two_below_constant (n : Nat) (h1 : 1 ≤ n) (h2 : n ≤ 12) :
    key.FKeys.get? (n - 1) = some (Key.key (0xFFFF - (n - 1))) ∧
    Key.funcion n = some (Key.key ((0xFFFF - (n - 1)) - 2)) := by
  interval_cases n <;> exact ⟨rfl, rfl⟩

/-- C3 amended, witnessed at n = 1: F1 carries code 0xFFFF and the
derivation yields 0xFFFD, two below it. -/
theorem funcion_two_below_constant_witness :
    key.FKeys.get? (1 - 1) = some (Key.key (0xFFFF - (1 - 1))) ∧
    Key.funcion 1 = some (Key.key ((0xFFFF - (1 - 1)) - 2)) :=
  funcion_two_below_constant 1 (by decide) (by decide)

/-- C1 counterexample: the raw record with type 1 and modifier 2 (an
unrecognized modifier), translated in non-raw mode, yields a successful
key event wrapping the key code — processing is not aborted and no
fatal outcome occurs, so the unrecognized modifier is silently
ignored. -/
theorem translated_modifier_counterexample :
    unpack_event 1 (RawEvent.mk 1 2 5 0 0 0 0 0) false =
      UnpackOutcome.ok (Event.KeyEvent (some (Key.key 5))) ∧
    unpack_event 1 (RawEvent.mk 1 2 5 0 0 0 0 0) false ≠ UnpackOutcome.fatal := by
  exact ⟨rfl, by decide⟩

/-- C1 amended: in translated mode the modifier field of a type-1 record
is ignored entirely — the result is the same for every pair of modifier
values, it is always a successful key event (never an abort), and the
resulting `Event.KeyEvent` carries no modifier information at all. -/
theorem translated_mode_ignores_modifier (etype emod emod' keycode chcode : Nat)
    (w h x y : Int) :
    unpack_event 1 (RawEvent.mk etype emod keycode chcode w h x y) false =
      unpack_event 1 (RawEvent.mk etype emod' keycode chcode w h x y) false ∧
    unpack_event 1 (RawEvent.mk etype emod keycode chcode w h x y) false =
      UnpackOutcome.ok (Event.KeyEvent
        (if keycode = 0 then (char_from_u32 chcode).map Key.char
         else Key.from_code keycode)) :=
  ⟨rfl, rfl⟩

/-- C5: a type-1 record translated in non-raw mode always yields a
successful key event: a zero key code decodes the character channel
(and an invalid Unicode scalar there yields the absence of a key, not
an error), while a nonzero key code is wrapped directly as a coded
key. -/
theorem translated_key_decoding (etype emod keycode chcode : Nat) (w h x y : Int) :
    unpack_event 1 (RawEvent.mk etype emod keycode chcode w h x y) false =
      UnpackOutcome.ok (Event.KeyEvent
        (if keycode = 0 then (char_from_u32 chcode).map Key.char
         else some (Key.key keycode))) ∧
    ((char_from_u32 chcode).map Key.char = none ↔ isUnicodeScalar chcode = false) := by
  refine ⟨rfl, ?_⟩
  unfold char_from_u32
  cases hv : isUnicodeScalar chcode <;> simp [hv]

/-- C6: building a `Style` from any of the nine colors zeroes every
attribute bit, and decoding the 4-bit color field read back from the
style recovers the original color. -/
theorem style_color_roundtrip (c : Color) :
    (Style.from_color c).and TB_ATTRIB = RB_NORMAL ∧
    Color.decode ((Style.from_color c).and TB_NORMAL_COLOR).bits = some c := by
  cases c <;> exact ⟨rfl, rfl⟩

/-- If a mask is bitwise disjoint from `y`, then or-ing `y` into a value
already restricted to the mask and masking again changes nothing. -/
theorem land_lor_land_of_disjoint (b y a : Nat) (hy : y &&& a = 0) :
    ((b &&& a) ||| y) &&& a = b &&& a := by
  apply Nat.eq_of_testBit_eq
  intro i
  have h0 : (y.testBit i && a.testBit i) = false := by
    rw [← Nat.testBit_and, hy]
    simp
  rw [Nat.testBit_and, Nat.testBit_or, Nat.testBit_and]
  cases ha : a.testBit i <;> cases hyy : y.testBit i <;>
    cases hb : b.testBit i <;> simp_all

/-- C7: combining the attribute part of any style with any color-derived
style and masking back to the attribute mask recovers exactly the
original attribute bits; moreover the attribute mask and the 4-bit
color field are bitwise disjoint. -/
theorem attrs_preserved_under_color (sty : Style) (c : Color) :
    ((sty.and TB_ATTRIB).or (Style.from_color c)).and TB_ATTRIB = sty.and TB_ATTRIB ∧
    TB_ATTRIB.and TB_NORMAL_COLOR = RB_NORMAL := by
  refine ⟨?_, by decide⟩
  have hc : (Style.from_color c).bits &&& TB_ATTRIB.bits = 0 := by
    cases c <;> decide
  cases sty with
  | mk b =>
    simp only [Style.and, Style.or]
    exact congrArg Style.mk (land_lor_land_of_disjoint b (Style.from_color c).bits TB_ATTRIB.bits hc)

/-- C8: when the process-wide running flag is already set, the atomic
swap in `running::run` fails, and `RustBox::init` returns the
AlreadyOpen error with an empty driver-call trace — no driver primitive
(in particular not `tb_init`) is invoked. -/
theorem init_already_open (res : Int) (opts : InitOptions) :
    RustBox.init true res opts = (InitOutcome.err InitError.AlreadyOpen, true, []) ∧
    running.run true = (none, true) :=
  ⟨rfl, rfl⟩

/-- C10: when acquisition succeeds but the driver's `tb_init` returns a
recognized nonzero status, `RustBox::init` returns the mapped error with
the running flag released back to false (the guard's Drop ran), and a
subsequent initialization attempt from that state is not blocked — with
a succeeding driver it returns Ok. -/
theorem init_releases_flag_on_driver_failure (res : Int) (opts : InitOptions)
    (e : InitError) (herr : InitError.from_termbox_error res = some e) :
    RustBox.init false res opts = (InitOutcome.err e, false, [DriverCall.tb_init]) ∧
    (RustBox.init false 0 opts).1 = InitOutcome.ok (RustBox.mk (RunningGuard.mk)) := by
  have hres : res ≠ 0 := by
    intro h
    rw [h] at herr
    simp [InitError.from_termbox_error] at herr
  constructor
  · simp [RustBox.init, running.run, hres, herr, RunningGuard.drop]
  · cases hm : opts.input_mode <;> simp [RustBox.init, running.run, hm]

/-- C10, witnessed with the driver status -1 (unsupported terminal): the
flag comes back false and a retry with a succeeding driver opens. -/
theorem init_releases_flag_on_driver_failure_witness :
    RustBox.init false (-1) (InitOptions.mk InputMode.Current) =
      (InitOutcome.err InitError.UnsupportedTerminal, false, [DriverCall.tb_init]) ∧
    (RustBox.init false 0 (InitOptions.mk InputMode.Current)).1 =
      InitOutcome.ok (RustBox.mk (RunningGuard.mk)) :=
  init_releases_flag_on_driver_failure (-1) (InitOptions.mk InputMode.Current)
    InitError.UnsupportedTerminal (by decide)

/-- Whether a key is a coded key whose code lies in the inclusive range
`lo`–`hi`; character keys are never in any coded range. -/
def Key.codedIn (k : Key) (lo hi : Nat) : Bool :=
  match k with
  | Key.key c => decide (lo ≤ c) && decide (c ≤ hi)
  | Key.char _ => false

/-- C9 counterexample: the named constant SPACE of the key-code table is
a coded key whose code 0x20 lies in the printable range 0x20–0x7E. -/
theorem printable_range_counterexample :
    key.SPACE ∈ key.constants ∧ key.SPACE = Key.key 0x20 ∧
    (key.SPACE).codedIn 0x20 0x7E = true := by decide

/-- On scalars below 0x100 every control code produced is below 0x20 or
equal to 0x7F, hence outside the printable range. -/
theorem controlCode_avoids_printable_small :
    ∀ m, m < 0x100 →
      (controlCode m).all (fun c => decide (c < 0x20) || decide (c = 0x7F)) = true := by
  decide

/-- C9 amended: the printable range 0x20–0x7E is never produced as a
coded key by `Key::control` or `Key::funcion`, and the only named
constant of the key-code table whose code lies in that range is SPACE
(code 0x20); every other constant avoids it. -/
theorem printable_range_reserved :
    (∀ ch : Char, (Key.control ch).all (fun k => ! k.codedIn 0x20 0x7E) = true) ∧
    (∀ num : Nat, (Key.funcion num).all (fun k => ! k.codedIn 0x20 0x7E) = true) ∧
    key.constants.filter (fun k => k.codedIn 0x20 0x7E) = [key.SPACE] := by
  refine ⟨?_, ?_, by decide⟩
  · intro ch
    unfold Key.control
    cases hc : controlCode ch.toNat with
    | none => rfl
    | some c =>
      by_cases hn : ch.toNat < 0x100
      · have := controlCode_avoids_printable_small ch.toNat hn
        rw [hc] at this
        simp only [Option.all_some, decide_eq_true_eq, Bool.or_eq_true] at this
        show (!(decide (0x20 ≤ c) && decide (c ≤ 0x7E))) = true
        simp only [Bool.not_eq_true', Bool.and_eq_false_iff, decide_eq_false_iff_not]
        omega
      · rw [show controlCode ch.toNat = none from by unfold controlCode; rw [if_pos (by omega)]] at hc
        cases hc
  · intro num
    unfold Key.funcion
    by_cases h : 1 ≤ num ∧ num ≤ 12
    · rw [if_pos h, Nat.mod_eq_of_lt (by omega)]
      simp only [Option.all_some, Key.codedIn, Bool.not_eq_true',
        Bool.and_eq_false_iff, decide_eq_false_iff_not]
      omega
    · rw [if_neg h]
      rfl

end Rustbox
